import Mathlib

/-!
Verification of the core logic of the Film Shoot Tracker (`film_roll_logger.py`).

The development shallowly embeds the non-UI logic of the application:
decimal rendering of integers (Python `str`), the option catalogs and the
shutter formatter, the DataFrame-shaped roll model, the CSV persistence
convention (`save_roll_csv` / `load_roll_csv` / the load-into-editor check),
the filename convention, the library filter, and the reset confirmation
state machine.  Strings are Lean `String`s; Python ints are `Int`;
the float shutter times are modelled as exact rationals (on every catalog
value the float computation of the formatter lands on the same integers
as the rational one, so the two agree observationally).  The CSV layer is
modelled at the granularity of rows of field strings: pandas' quoting
layer is the identity on field contents, while its type inference is
modelled for integer and boolean columns and its default NA tokens;
float-typed inference is outside the modelled fragment and the round-trip
theorems carry hypotheses keeping their inputs away from it.
-/

namespace FilmRoll

/-- Decimal digit character for a digit `d < 10`, as produced by Python `str`. -/
def digitChar (d : Nat) : Char := "0123456789".data.getD d '*'

/-- Fuel-driven core of the decimal-digit computation; structural recursion so
that the kernel can evaluate it inside `decide`. -/
def natDigitsAux : Nat → Nat → List Nat
  | 0, _ => []
  | fuel + 1, n => if n < 10 then [n] else natDigitsAux fuel (n / 10) ++ [n % 10]

/-- Decimal digits of a natural number, most significant first. -/
def natDigits (n : Nat) : List Nat := natDigitsAux (n + 1) n

theorem natDigitsAux_spec : ∀ (fuel n : Nat), n < fuel →
    natDigitsAux fuel n ≠ [] ∧ (∀ d ∈ natDigitsAux fuel n, d < 10) ∧
      (natDigitsAux fuel n).foldl (fun a d => 10 * a + d) 0 = n := by
  intro fuel
  induction fuel with
  | zero => intro n h; omega
  | succ f ih =>
    intro n h
    rw [natDigitsAux]
    by_cases h10 : n < 10
    · rw [if_pos h10]
      refine ⟨by simp, ?_, by simp⟩
      intro d hd
      rw [List.mem_singleton] at hd
      omega
    · rw [if_neg h10]
      have hdiv : n / 10 < n := Nat.div_lt_self (by omega) (by omega)
      obtain ⟨h1, h2, h3⟩ := ih (n / 10) (by omega)
      refine ⟨by simp, ?_, ?_⟩
      · intro d hd
        rcases List.mem_append.1 hd with hx | hx
        · exact h2 d hx
        · rw [List.mem_singleton] at hx
          subst hx
          exact Nat.mod_lt _ (by omega)
      · rw [List.foldl_append, h3]
        simp only [List.foldl_cons, List.foldl_nil]
        omega

/-- Model of Python `str` on a natural number. -/
def natToStr (n : Nat) : String := ⟨(natDigits n).map digitChar⟩

/-- Model of Python `str` on an integer. -/
def intToStr (n : Int) : String :=
  if n < 0 then "-" ++ natToStr n.natAbs else natToStr n.toNat

/-- Numeric value of a decimal digit character. -/
def charDigit (c : Char) : Nat := c.toNat - 48

/-- Parse a nonempty all-digit character list as a natural number. -/
def digitsToNat (s : List Char) : Option Nat :=
  if s ≠ [] ∧ s.all Char.isDigit then
    some (s.foldl (fun a c => 10 * a + charDigit c) 0)
  else none

/-- Integer parser as applied by the pandas reader to a CSV field:
an optional sign followed by decimal digits. -/
def parseInt (s : String) : Option Int :=
  match s.data with
  | [] => none
  | c :: cs =>
    if c = '-' then (digitsToNat cs).map (fun m => -(Int.ofNat m))
    else if c = '+' then (digitsToNat cs).map Int.ofNat
    else (digitsToNat (c :: cs)).map Int.ofNat

/-- Characters that can occur in a numeric literal. -/
def numericChar (c : Char) : Bool :=
  c.isDigit || c = '+' || c = '-' || c = '.' || c = 'e' || c = 'E'

theorem digitChar_spec (d : Nat) (hd : d < 10) :
    (digitChar d).isDigit = true ∧ charDigit (digitChar d) = d ∧
      digitChar d ≠ '-' ∧ digitChar d ≠ '+' := by
  interval_cases d <;> exact ⟨rfl, rfl, by decide, by decide⟩

theorem natDigits_lt_ten (n : Nat) : ∀ d ∈ natDigits n, d < 10 :=
  (natDigitsAux_spec (n + 1) n (by omega)).2.1

theorem natDigits_ne_nil (n : Nat) : natDigits n ≠ [] :=
  (natDigitsAux_spec (n + 1) n (by omega)).1

theorem foldl_natDigits (n : Nat) :
    (natDigits n).foldl (fun a d => 10 * a + d) 0 = n :=
  (natDigitsAux_spec (n + 1) n (by omega)).2.2

theorem digitsToNat_natToStr (n : Nat) :
    digitsToNat (natToStr n).data = some n := by
  have hall : ((natDigits n).map digitChar).all Char.isDigit = true := by
    rw [List.all_eq_true]
    intro c hc
    rw [List.mem_map] at hc
    obtain ⟨d, hd, rfl⟩ := hc
    exact (digitChar_spec d (natDigits_lt_ten n d hd)).1
  have hne : (natDigits n).map digitChar ≠ [] := by
    simpa using natDigits_ne_nil n
  show digitsToNat ((natDigits n).map digitChar) = some n
  rw [digitsToNat, if_pos ⟨hne, hall⟩, List.foldl_map]
  congr 1
  calc (natDigits n).foldl (fun a c => 10 * a + charDigit (digitChar c)) 0
      = (natDigits n).foldl (fun a d => 10 * a + d) 0 := by
        apply List.foldl_ext
        intro a d hd
        rw [(digitChar_spec d (natDigits_lt_ten n d hd)).2.1]
    _ = n := foldl_natDigits n

theorem natToStr_head_digit (n : Nat) :
    ∃ c cs, (natToStr n).data = c :: cs ∧ c ≠ '-' ∧ c ≠ '+' := by
  have hne := natDigits_ne_nil n
  rcases hd : natDigits n with _ | ⟨d, ds⟩
  · exact absurd hd hne
  · have hdm : d ∈ natDigits n := by rw [hd]; exact List.mem_cons_self d ds
    refine ⟨digitChar d, ds.map digitChar, ?_, ?_, ?_⟩
    · show ((natDigits n).map digitChar) = _
      rw [hd]; rfl
    · exact (digitChar_spec d (natDigits_lt_ten n d hdm)).2.2.1
    · exact (digitChar_spec d (natDigits_lt_ten n d hdm)).2.2.2

theorem parseInt_cons (s : String) (c : Char) (cs : List Char) (h : s.data = c :: cs) :
    parseInt s =
      if c = '-' then (digitsToNat cs).map (fun m => -(Int.ofNat m))
      else if c = '+' then (digitsToNat cs).map Int.ofNat
      else (digitsToNat (c :: cs)).map Int.ofNat := by
  rw [parseInt.eq_def, h]

theorem parseInt_intToStr (n : Int) : parseInt (intToStr n) = some n := by
  by_cases hn : n < 0
  · rw [intToStr, if_pos hn]
    have hdm : ("-" ++ natToStr n.natAbs).data = '-' :: (natToStr n.natAbs).data := rfl
    rw [parseInt_cons _ _ _ hdm, if_pos rfl, digitsToNat_natToStr]
    show some (-((n.natAbs : Int))) = some n
    congr 1
    omega
  · rw [intToStr, if_neg hn]
    obtain ⟨c, cs, hdata, hc1, hc2⟩ := natToStr_head_digit n.toNat
    rw [parseInt_cons _ _ _ hdata, if_neg hc1, if_neg hc2, ← hdata, digitsToNat_natToStr]
    show some ((n.toNat : Int)) = some n
    congr 1
    omega

theorem digitsToNat_digits (l : List Char) (m : Nat) (h : digitsToNat l = some m) :
    l ≠ [] ∧ l.all Char.isDigit = true := by
  rw [digitsToNat] at h
  split_ifs at h with hc
  exact hc

theorem all_numeric_of_parseInt (s : String) (n : Int) (h : parseInt s = some n) :
    s.data.all numericChar = true := by
  have hdigits : ∀ (l : List Char), l.all Char.isDigit = true → l.all numericChar = true := by
    intro l hl
    rw [List.all_eq_true] at hl ⊢
    intro x hx
    simp only [numericChar, Bool.or_eq_true]
    exact Or.inl (Or.inl (Or.inl (Or.inl (Or.inl (hl x hx)))))
  rcases hd : s.data with _ | ⟨c, cs⟩
  · rw [parseInt.eq_def, hd] at h
    simp at h
  · rw [parseInt_cons _ _ _ hd] at h
    split_ifs at h with h1 h2
    · subst h1
      rcases hdn : digitsToNat cs with _ | m
      · rw [hdn] at h; simp at h
      · rw [List.all_cons, (hdigits cs (digitsToNat_digits cs m hdn).2)]
        decide
    · subst h2
      rcases hdn : digitsToNat cs with _ | m
      · rw [hdn] at h; simp at h
      · rw [List.all_cons, (hdigits cs (digitsToNat_digits cs m hdn).2)]
        decide
    · rcases hdn : digitsToNat (c :: cs) with _ | m
      · rw [hdn] at h; simp at h
      · exact hdigits (c :: cs) (digitsToNat_digits (c :: cs) m hdn).2

/-- Python whitespace characters (the ASCII ones recognised by `str.strip`). -/
def pyIsSpace (c : Char) : Bool := c ∈ [' ', '\t', '\n', '\r', '\x0b', '\x0c']

/-- Model of Python `str.strip()`: drop leading and trailing whitespace. -/
def pyStrip (s : String) : String :=
  ⟨((s.data.dropWhile pyIsSpace).reverse.dropWhile pyIsSpace).reverse⟩

/-- Model of Python `str.replace(old, new)` on character lists, scanning left
to right and replacing each non-overlapping occurrence of the nonempty pattern
`o :: os` by `new`.  Structural recursion on a fuel argument (one unit per
consumed character) keeps it kernel-evaluable. -/
def pyReplaceAux (o : Char) (os : List Char) (new : List Char) : Nat → List Char → List Char
  | 0, l => l
  | _ + 1, [] => []
  | fuel + 1, c :: cs =>
    if (o :: os).isPrefixOf (c :: cs) then new ++ pyReplaceAux o os new fuel (cs.drop os.length)
    else c :: pyReplaceAux o os new fuel cs

/-- Model of Python `str.replace(old, new)` with `old = o :: os`. -/
def pyReplace (s : String) (o : Char) (os : List Char) (new : List Char) : String :=
  ⟨pyReplaceAux o os new s.data.length s.data⟩

theorem pyReplaceAux_single (a b : Char) :
    ∀ (fuel : Nat) (l : List Char), l.length ≤ fuel →
      pyReplaceAux a [] [b] fuel l = l.map (fun c => if c = a then b else c) := by
  intro fuel
  induction fuel with
  | zero =>
    intro l hl
    have h0 : l = [] := List.length_eq_zero.1 (by omega)
    subst h0
    rfl
  | succ f ih =>
    intro l hl
    rcases l with _ | ⟨c, cs⟩
    · rw [pyReplaceAux]
      rfl
    · rw [pyReplaceAux]
      simp only [List.isPrefixOf, List.length_nil, List.drop_zero, Bool.and_true, List.map_cons]
      rw [List.length_cons] at hl
      by_cases hc : c = a
      · subst hc
        rw [if_pos (by simp), ih cs (by omega)]
        simp
      · rw [if_neg (by simp [beq_iff_eq]; exact fun h => hc h.symm), if_neg hc, ih cs (by omega)]

theorem pyReplace_single (s : String) (a b : Char) :
    pyReplace s a [] [b] = ⟨s.data.map (fun c => if c = a then b else c)⟩ := by
  rw [pyReplace, pyReplaceAux_single a b s.data.length s.data (le_refl _)]

/-- ASCII lower-casing of one character, the fragment of Python `str.lower`
relevant to the filename alphabet. -/
def asciiLower (c : Char) : Char :=
  if 'A' ≤ c ∧ c ≤ 'Z' then Char.ofNat (c.toNat + 32) else c

/-- Model of Python `str.lower()` (ASCII fragment). -/
def pyLower (s : String) : String := ⟨s.data.map asciiLower⟩

/-- Model of the Python `in` operator on strings: substring containment. -/
def pyContains (hay needle : String) : Bool := decide (needle.data <:+: hay.data)

/-! ## Option catalogs and the shutter formatter (source lines 39-55) -/

/-- The fixed shutter-speed catalog `STANDARD_SHUTTERS`, 30s down to 1/4000s.
The Python floats are modelled as exact rationals; on every catalog value the
float reciprocal lands well within 0.5 of the exact integer denominator, so
`int(t)` and `int(round(1/t))` computed on floats agree with the rational
model's outputs. -/
def STANDARD_SHUTTERS : List ℚ :=
  [30, 15, 8, 4, 2, 1,
   1/2, 1/4, 1/8, 1/15, 1/30, 1/60,
   1/125, 1/250, 1/500, 1/1000, 1/2000, 1/4000]

/-- Python `int()` truncation toward zero on a rational. -/
def pyTrunc (q : ℚ) : Int := if 0 ≤ q then ⌊q⌋ else -⌊-q⌋

/-- Python `round()` to the nearest integer, ties going to the even integer. -/
def pyRound (q : ℚ) : Int :=
  if q - ⌊q⌋ < 1/2 then ⌊q⌋
  else if 1/2 < q - ⌊q⌋ then ⌊q⌋ + 1
  else if 2 ∣ ⌊q⌋ then ⌊q⌋ else ⌊q⌋ + 1

/-- Model of `fmt_shutter` (source line 51-52):
`f"{int(t)}s" if t >= 1 else f"1/{int(round(1/t))}s"`. -/
def fmt_shutter (t : ℚ) : String :=
  if 1 ≤ t then intToStr (pyTrunc t) ++ "s"
  else "1/" ++ intToStr (pyRound (1/t)) ++ "s"

/-- Model of `SHUTTER_CHOICES` (source line 54). -/
def SHUTTER_CHOICES : List String := STANDARD_SHUTTERS.map fmt_shutter

theorem pyTrunc_intCast (n : Int) : pyTrunc ((n : ℚ)) = n := by
  rw [pyTrunc]
  by_cases h : (0 : ℚ) ≤ (n : ℚ)
  · rw [if_pos h, Int.floor_intCast]
  · rw [if_neg h, ← Int.cast_neg, Int.floor_intCast, neg_neg]

theorem pyRound_intCast (n : Int) : pyRound ((n : ℚ)) = n := by
  rw [pyRound, Int.floor_intCast]
  norm_num

theorem fmt_shutter_ge_one (t : ℚ) (n : Int) (h1 : 1 ≤ t) (h2 : t = (n : ℚ)) :
    fmt_shutter t = intToStr n ++ "s" := by
  rw [fmt_shutter, if_pos h1, h2, pyTrunc_intCast]

theorem fmt_shutter_lt_one (t : ℚ) (n : Int) (h1 : ¬(1 ≤ t)) (h2 : 1 / t = (n : ℚ)) :
    fmt_shutter t = "1/" ++ intToStr n ++ "s" := by
  rw [fmt_shutter, if_neg h1, h2, pyRound_intCast]

theorem shutter_choices_eval :
    SHUTTER_CHOICES = ["30s", "15s", "8s", "4s", "2s", "1s", "1/2s", "1/4s", "1/8s",
      "1/15s", "1/30s", "1/60s", "1/125s", "1/250s", "1/500s", "1/1000s", "1/2000s",
      "1/4000s"] := by
  have e1 : fmt_shutter 30 = "30s" := by
    rw [fmt_shutter_ge_one 30 30 (by norm_num) (by norm_num)]
    decide
  have e2 : fmt_shutter 15 = "15s" := by
    rw [fmt_shutter_ge_one 15 15 (by norm_num) (by norm_num)]
    decide
  have e3 : fmt_shutter 8 = "8s" := by
    rw [fmt_shutter_ge_one 8 8 (by norm_num) (by norm_num)]
    decide
  have e4 : fmt_shutter 4 = "4s" := by
    rw [fmt_shutter_ge_one 4 4 (by norm_num) (by norm_num)]
    decide
  have e5 : fmt_shutter 2 = "2s" := by
    rw [fmt_shutter_ge_one 2 2 (by norm_num) (by norm_num)]
    decide
  have e6 : fmt_shutter 1 = "1s" := by
    rw [fmt_shutter_ge_one 1 1 (by norm_num) (by norm_num)]
    decide
  have e7 : fmt_shutter (1/2) = "1/2s" := by
    rw [fmt_shutter_lt_one (1/2) 2 (by norm_num) (by norm_num)]
    decide
  have e8 : fmt_shutter (1/4) = "1/4s" := by
    rw [fmt_shutter_lt_one (1/4) 4 (by norm_num) (by norm_num)]
    decide
  have e9 : fmt_shutter (1/8) = "1/8s" := by
    rw [fmt_shutter_lt_one (1/8) 8 (by norm_num) (by norm_num)]
    decide
  have e10 : fmt_shutter (1/15) = "1/15s" := by
    rw [fmt_shutter_lt_one (1/15) 15 (by norm_num) (by norm_num)]
    decide
  have e11 : fmt_shutter (1/30) = "1/30s" := by
    rw [fmt_shutter_lt_one (1/30) 30 (by norm_num) (by norm_num)]
    decide
  have e12 : fmt_shutter (1/60) = "1/60s" := by
    rw [fmt_shutter_lt_one (1/60) 60 (by norm_num) (by norm_num)]
    decide
  have e13 : fmt_shutter (1/125) = "1/125s" := by
    rw [fmt_shutter_lt_one (1/125) 125 (by norm_num) (by norm_num)]
    decide
  have e14 : fmt_shutter (1/250) = "1/250s" := by
    rw [fmt_shutter_lt_one (1/250) 250 (by norm_num) (by norm_num)]
    decide
  have e15 : fmt_shutter (1/500) = "1/500s" := by
    rw [fmt_shutter_lt_one (1/500) 500 (by norm_num) (by norm_num)]
    decide
  have e16 : fmt_shutter (1/1000) = "1/1000s" := by
    rw [fmt_shutter_lt_one (1/1000) 1000 (by norm_num) (by norm_num)]
    decide
  have e17 : fmt_shutter (1/2000) = "1/2000s" := by
    rw [fmt_shutter_lt_one (1/2000) 2000 (by norm_num) (by norm_num)]
    decide
  have e18 : fmt_shutter (1/4000) = "1/4000s" := by
    rw [fmt_shutter_lt_one (1/4000) 4000 (by norm_num) (by norm_num)]
    decide
  simp only [SHUTTER_CHOICES, STANDARD_SHUTTERS, List.map_cons, List.map_nil,
    e1, e2, e3, e4, e5, e6, e7, e8, e9, e10, e11, e12, e13, e14, e15, e16, e17, e18]

/-! ## The DataFrame model -/

/-- A cell of the in-memory DataFrame: a Python int, a string, a bool, or
NaN. -/
inductive Val where
  | int (n : Int)
  | str (s : String)
  | bool (b : Bool)
  | na
deriving DecidableEq

/-- In-memory DataFrame: column names plus rows of cells. -/
structure DF where
  cols : List String
  rows : List (List Val)
deriving DecidableEq

/-- Rendering of one cell by pandas `to_csv`: ints print via `str`, strings
pass through (the CSV quoting layer is the identity on field contents), bools
print as Python `True`/`False`, NaN prints as the empty field. -/
def renderVal : Val → String
  | .int n => intToStr n
  | .str s => s
  | .bool b => if b then "True" else "False"
  | .na => ""

/-- Pandas `df.insert(i, name, scalar)`: insert a column at position `i` with
the scalar broadcast to every row. -/
def DF.insertCol (df : DF) (i : Nat) (name : String) (v : Val) : DF :=
  { cols := df.cols.insertIdx i name, rows := df.rows.map (fun r => r.insertIdx i v) }

/-- Pandas `df.to_csv(index=False)`, at the granularity of rows of field
strings: the header row followed by one rendered data row per frame. -/
def DF.toCsv (df : DF) : List (List String) :=
  df.cols :: df.rows.map (fun r => r.map renderVal)

/-- The default NA tokens of `pandas.read_csv`: a field equal to one of these
is read back as NaN. -/
def NA_TOKENS : List String :=
  ["", "#N/A", "#N/A N/A", "#NA", "-1.#IND", "-1.#QNAN", "-NaN", "-nan",
   "1.#IND", "1.#QNAN", "<NA>", "N/A", "NA", "NULL", "NaN", "None", "n/a", "nan", "null"]

/-- Whether a raw field is one of the pandas NA tokens. -/
def isNA (s : String) : Bool := NA_TOKENS.contains s

/-- Whether the pandas reader types column `j` of the data grid as int64:
every field of the column parses as an integer. -/
def isIntColumn (data : List (List String)) (j : Nat) : Bool :=
  data.all (fun r => (parseInt (r.getD j "")).isSome)

/-- Whether a raw field is one of the boolean tokens recognised by the pandas
reader: a case-insensitive variant of `True` or `False`. -/
def isBoolToken (s : String) : Bool :=
  s.data.map asciiLower ∈ [['t', 'r', 'u', 'e'], ['f', 'a', 'l', 's', 'e']]

/-- The boolean value of a boolean token. -/
def boolOfToken (s : String) : Bool := s.data.map asciiLower == ['t', 'r', 'u', 'e']

/-- Whether the pandas reader types column `j` of the data grid as bool:
every field of the column is a boolean token. -/
def isBoolColumn (data : List (List String)) (j : Nat) : Bool :=
  data.all (fun r => isBoolToken (r.getD j ""))

/-- How the pandas reader materialises one field, given the types inferred
for its column: an int64 cell in an int column, a bool cell in a bool column,
otherwise NaN for an NA token and the raw string for everything else. -/
def parseCell (intCol boolCol : Bool) (s : String) : Val :=
  if intCol then Val.int ((parseInt s).getD 0)
  else if boolCol then Val.bool (boolOfToken s)
  else if isNA s then Val.na else Val.str s

/-- `pandas.read_csv` on a grid of raw fields: the first row is the header; a
column every field of which parses as an integer becomes an int64 column; a
column every field of which is a True/False variant becomes a bool column;
any other column keeps its fields as strings, with NA tokens read as NaN.
(Float-typed inference is outside the modelled fragment; the theorems relying
on `read_csv` keep their string fields away from it via `plainText`.) -/
def read_csv : List (List String) → Option DF
  | [] => none
  | header :: data =>
    some { cols := header,
           rows := data.map (fun r => (List.range header.length).map (fun j =>
             parseCell (isIntColumn data j) (isBoolColumn data j) (r.getD j ""))) }

/-- Pandas column selection `df[names]` (first matching column per name). -/
def DF.select (df : DF) (names : List String) : DF :=
  { cols := names,
    rows := df.rows.map (fun r => names.map (fun nm => r.getD (df.cols.indexOf nm) Val.na)) }

/-! ## Dates, filenames and the persistence convention -/

/-- A Python `datetime.date`. -/
structure PyDate where
  year : Nat
  month : Nat
  day : Nat
deriving DecidableEq

/-- A Python `datetime.datetime`, to second precision. -/
structure PyDateTime where
  year : Nat
  month : Nat
  day : Nat
  hour : Nat
  minute : Nat
  second : Nat
deriving DecidableEq

/-- Zero-padding of a decimal rendering to width `w` (a `strftime` field). -/
def padZero (w : Nat) (n : Nat) : String :=
  ⟨List.replicate (w - (natToStr n).data.length) '0' ++ (natToStr n).data⟩

/-- Python `strftime("%Y-%m-%d")`. -/
def fmtDate (d : PyDate) : String :=
  padZero 4 d.year ++ "-" ++ padZero 2 d.month ++ "-" ++ padZero 2 d.day

/-- Python `strftime("%Y%m%d_%H%M%S")`. -/
def fmtTimestamp (t : PyDateTime) : String :=
  padZero 4 t.year ++ padZero 2 t.month ++ padZero 2 t.day ++ "_" ++
    padZero 2 t.hour ++ padZero 2 t.minute ++ padZero 2 t.second

/-- The editor-relevant columns (source line 130). -/
def editor_cols : List String := ["Frame #", "ISO", "Shutter", "Aperture", "Lens", "Notes"]

/-- The header of a persisted roll file. -/
def FULL_HEADER : List String :=
  ["Project", "Camera", "Date Shot", "Film", "Film ISO", "ISO Set",
   "Frame #", "ISO", "Shutter", "Aperture", "Lens", "Notes"]

/-- Model of `save_roll_csv` (source lines 60-77).  `datetime.now()` is passed
in as `now`; the function returns the produced filename together with the
written file, as rows of raw fields. -/
def save_roll_csv (now : PyDateTime) (df_with_meta : DF) (project_name camera : String)
    (roll_date : PyDate) (film_type : String) (film_iso iso_set : Int) (frames : Nat) :
    String × List (List String) :=
  let safe_name := pyReplace (pyStrip project_name) ' ' [] ['_']
  let camera_name := pyReplace (pyStrip camera) ' ' [] ['_']
  let film_name := pyReplace (pyStrip film_type) ' ' [] ['_']
  let date_str := fmtDate roll_date
  let timestamp := fmtTimestamp now
  let fname := timestamp ++ "__" ++ date_str ++ "__" ++ safe_name ++ "__" ++ camera_name ++
    "__" ++ film_name ++ "__" ++ natToStr frames ++ "f.csv"
  let export_df :=
    (((((df_with_meta.insertCol 0 "Project" (.str project_name)).insertCol 1 "Camera"
      (.str camera)).insertCol 2 "Date Shot" (.str date_str)).insertCol 3 "Film"
      (.str film_type)).insertCol 4 "Film ISO" (.int film_iso)).insertCol 5 "ISO Set"
      (.int iso_set)
  (fname, export_df.toCsv)

/-- Model of `load_roll_csv` (source lines 79-81): read the persisted file. -/
def load_roll_csv (file : List (List String)) : Option DF := read_csv file

/-- Model of the load-into-editor handler (source lines 129-135): when every
editor column is present the session roll becomes the selection of those
columns, otherwise a warning is shown and the previous roll is kept.  The
Bool records success. -/
def load_into_editor (roll_df : Option DF) (loaded_df : DF) : Option DF × Bool :=
  if ∀ c ∈ editor_cols, c ∈ loaded_df.cols then
    (some (loaded_df.select editor_cols), true)
  else (roll_df, false)

/-! ## Roll building, frame duplication, session state, library filter -/

/-- Model of the Build-roll-sheet handler (source lines 173-181); the
DataFrame built column-wise from the dict is represented by its rows. -/
def build_roll (frames : Nat) (default_iso : Int)
    (default_shutter default_aperture : String) : DF :=
  { cols := editor_cols,
    rows := (List.range frames).map (fun i : Nat =>
      [Val.int ((i : Int) + 1), Val.int default_iso, Val.str default_shutter,
       Val.str default_aperture, Val.str "", Val.str ""]) }

/-- Model of the Duplicate-last-frame handler (source lines 263-269):
`roll_df.iloc[idx, 1:] = roll_df.iloc[idx-1, 1:]` when `idx > 0`, otherwise an
info message and no mutation.  The Bool records whether a copy happened. -/
def duplicate_frame (df : DF) (frame_num : Nat) : DF × Bool :=
  let idx := frame_num - 1
  if idx > 0 then
    ({ df with rows := (df.rows.set idx
        ((df.rows.getD idx []).take 1 ++ (df.rows.getD (idx - 1) []).drop 1)) }, true)
  else (df, false)

/-- The session state relevant to the reset confirmation flow
(source lines 88-91). -/
structure Session where
  roll_df : Option DF
  reset_pending : Bool
deriving DecidableEq

/-- The Reset-roll-sheet button (source lines 183-184). -/
def request_reset (s : Session) : Session := { s with reset_pending := true }

/-- The Cancel button of the confirmation flow (source lines 203-205). -/
def cancel_reset (s : Session) : Session := { s with reset_pending := false }

/-- The Confirm-reset button (source lines 191-201): rebuild the roll from
the current Project Setup values and clear the pending flag. -/
def confirm_reset (frames : Nat) (default_iso : Int) (s : Session) : Session :=
  { s with roll_df := some (build_roll frames default_iso "1/125s" "f/8"),
           reset_pending := false }

/-- Model of the library filter (source lines 306-308): keep files whose
lower-cased name contains the lower-cased query, then, when the date filter is
non-empty, keep those containing the literal `__{date}__` token. -/
def library_filter (files : List String) (q filter_date : String) : List String :=
  let filtered := files.filter (fun f => pyContains (pyLower f) (pyLower q))
  if filter_date ≠ "" then
    filtered.filter (fun f => pyContains f ("__" ++ filter_date ++ "__"))
  else filtered

/-! ## Well-typed frames and the plain-text fragment -/

/-- Strip one leading sign character. -/
def stripSign : List Char → List Char
  | '+' :: r => r
  | '-' :: r => r
  | r => r

/-- Words that the pandas reader would convert to a float column. -/
def isFloatWord (s : String) : Bool :=
  stripSign (s.data.map asciiLower) ∈
    [['i', 'n', 'f'], ['i', 'n', 'f', 'i', 'n', 'i', 't', 'y'], ['n', 'a', 'n']]

/-- A string field that survives the pandas CSV round trip unchanged:
non-empty, not an NA token, not shaped like a numeric literal, not an
infinity/nan word and not a boolean token. -/
def plainText (s : String) : Bool :=
  !s.data.isEmpty && !isNA s && !s.data.all numericChar && !isFloatWord s &&
    !isBoolToken s

/-- One frame of the editor grid with well-typed cells. -/
structure FrameRec where
  frameNo : Int
  iso : Int
  shutter : String
  aperture : String
  lens : String
  notes : String
deriving DecidableEq

/-- The editor row corresponding to a frame. -/
def FrameRec.toRow (f : FrameRec) : List Val :=
  [.int f.frameNo, .int f.iso, .str f.shutter, .str f.aperture, .str f.lens, .str f.notes]

/-- The in-memory roll corresponding to a list of frames. -/
def rollOfFrames (fs : List FrameRec) : DF :=
  { cols := editor_cols, rows := fs.map FrameRec.toRow }

/-! ## Shared helper lemmas -/

theorem getD_map_range {α : Type} (n j : Nat) (g : Nat → α) (d : α) (h : j < n) :
    ((List.range n).map g).getD j d = g j := by
  rw [List.getD_eq_getElem?_getD, List.getElem?_map, List.getElem?_range h]
  rfl

/-- The six metadata fields broadcast onto every data row. -/
def metaFields (p c : String) (d : PyDate) (ft : String) (i1 i2 : Int) : List String :=
  [p, c, fmtDate d, ft, intToStr i1, intToStr i2]

/-- The body written by `save_roll_csv`: the fixed header followed by one row
per frame, each row the six metadata fields followed by the rendered frame. -/
theorem save_csv_body (now : PyDateTime) (df : DF) (p c : String) (d : PyDate)
    (ft : String) (i1 i2 : Int) (fr : Nat) (hc : df.cols = editor_cols) :
    (save_roll_csv now df p c d ft i1 i2 fr).2 =
      FULL_HEADER :: df.rows.map (fun r => metaFields p c d ft i1 i2 ++ r.map renderVal) := by
  rw [save_roll_csv]
  simp only [DF.insertCol, DF.toCsv, List.map_map]
  rw [hc]
  congr 1

/-! ## Concrete fixtures used by witnesses and counterexamples -/

/-- A concrete save time. -/
def sampleNow : PyDateTime := ⟨2026, 10, 12, 9, 30, 0⟩

/-- A concrete shooting date. -/
def sampleDate : PyDate := ⟨2026, 10, 11⟩

/-- A frame whose string cells are all plain text. -/
def sampleFrame : FrameRec := ⟨1, 400, "1/125s", "f/8", "lens x", "note y"⟩

/-- A frame with empty lens and notes, as produced by `build_roll`. -/
def emptyFrame : FrameRec := ⟨1, 400, "1/125s", "f/8", "", ""⟩

/-! ## Claim C2 -/

/-- Claim C2: for every `frame_count` in {12, 24, 27, 36}, `build_roll`
returns a roll of exactly `frame_count` frames whose frame numbers are
1..frame_count in order, each frame having the given default ISO, shutter
"1/125s", aperture "f/8", and empty lens and notes. -/
theorem claim_C2_build_roll (fc : Nat) (iso : Int) (_hfc : fc ∈ [12, 24, 27, 36]) :
    (build_roll fc iso "1/125s" "f/8").cols = editor_cols ∧
    (build_roll fc iso "1/125s" "f/8").rows.length = fc ∧
    ∀ i, i < fc →
      (build_roll fc iso "1/125s" "f/8").rows.getD i [] =
        [Val.int ((i : Int) + 1), Val.int iso, Val.str "1/125s", Val.str "f/8",
         Val.str "", Val.str ""] := by
  refine ⟨rfl, by simp [build_roll], ?_⟩
  intro i hi
  rw [build_roll]
  exact getD_map_range fc i _ [] hi

/-- Witness for claim C2 at `frame_count = 12`, frame 1. -/
theorem claim_C2_witness :
    (build_roll 12 400 "1/125s" "f/8").rows.length = 12 ∧
    (build_roll 12 400 "1/125s" "f/8").rows.getD 0 [] =
      [Val.int 1, Val.int 400, Val.str "1/125s", Val.str "f/8", Val.str "", Val.str ""] := by
  refine ⟨(claim_C2_build_roll 12 400 (by decide)).2.1, ?_⟩
  have h := (claim_C2_build_roll 12 400 (by decide)).2.2 0 (by decide)
  simpa using h

/-! ## Claim C3 -/

/-- Claim C3: `duplicate_frame` on frame 1 fails (no predecessor) and leaves
the roll unchanged; for 1 < n ≤ length it copies every field except the frame
number from frame n-1 into frame n and leaves all other frames unchanged. -/
theorem claim_C3_duplicate_frame (df : DF) (n : Nat) :
    (n = 1 → duplicate_frame df n = (df, false)) ∧
    (1 < n → n ≤ df.rows.length →
      (duplicate_frame df n).2 = true ∧
      (duplicate_frame df n).1.cols = df.cols ∧
      (duplicate_frame df n).1.rows.getD (n - 1) [] =
        (df.rows.getD (n - 1) []).take 1 ++ (df.rows.getD (n - 2) []).drop 1 ∧
      ∀ j, j ≠ n - 1 → (duplicate_frame df n).1.rows.getD j [] = df.rows.getD j []) := by
  constructor
  · intro hn
    subst hn
    rw [duplicate_frame]
    rfl
  · intro h1 h2
    have hidx : n - 1 > 0 := by omega
    simp only [duplicate_frame]
    rw [if_pos hidx]
    refine ⟨rfl, rfl, ?_, ?_⟩
    · rw [List.getD_eq_getElem?_getD, List.getElem?_set_self (by omega)]
      have he : n - 1 - 1 = n - 2 := by omega
      rw [he]
      rfl
    · intro j hj
      rw [List.getD_eq_getElem?_getD, List.getElem?_set_ne (fun hx => hj hx.symm),
        ← List.getD_eq_getElem?_getD]

/-- Witness for claim C3 on a two-frame roll, at n = 1 and n = 2. -/
theorem claim_C3_witness :
    duplicate_frame (rollOfFrames [emptyFrame, sampleFrame]) 1 =
      (rollOfFrames [emptyFrame, sampleFrame], false) ∧
    (duplicate_frame (rollOfFrames [emptyFrame, sampleFrame]) 2).2 = true ∧
    (duplicate_frame (rollOfFrames [emptyFrame, sampleFrame]) 2).1.rows.getD 1 [] =
      ((rollOfFrames [emptyFrame, sampleFrame]).rows.getD 1 []).take 1 ++
        ((rollOfFrames [emptyFrame, sampleFrame]).rows.getD 0 []).drop 1 := by
  refine ⟨(claim_C3_duplicate_frame _ 1).1 rfl,
    ((claim_C3_duplicate_frame _ 2).2 (by decide) (by decide)).1, ?_⟩
  have h := ((claim_C3_duplicate_frame _ 2).2 (by decide)
    (by decide : (2 : Nat) ≤ (rollOfFrames [emptyFrame, sampleFrame]).rows.length)).2.2.1
  simpa using h

/-! ## Claim C7 -/

/-- Claim C7: the shutter formatter renders every catalog value as "{N}s" for
times of at least one second and as "1/{round(1/t)}s" below one second; in
particular 1 ↦ "1s", 0.5 ↦ "1/2s", 1/125 ↦ "1/125s", 1/4000 ↦ "1/4000s". -/
theorem claim_C7_fmt_shutter :
    SHUTTER_CHOICES = ["30s", "15s", "8s", "4s", "2s", "1s", "1/2s", "1/4s", "1/8s",
      "1/15s", "1/30s", "1/60s", "1/125s", "1/250s", "1/500s", "1/1000s", "1/2000s",
      "1/4000s"] ∧
    fmt_shutter 1 = "1s" ∧ fmt_shutter (1/2) = "1/2s" ∧
    fmt_shutter (1/125) = "1/125s" ∧ fmt_shutter (1/4000) = "1/4000s" := by
  refine ⟨shutter_choices_eval, ?_, ?_, ?_, ?_⟩
  · rw [fmt_shutter_ge_one 1 1 (by norm_num) (by norm_num)]
    decide
  · rw [fmt_shutter_lt_one (1/2) 2 (by norm_num) (by norm_num)]
    decide
  · rw [fmt_shutter_lt_one (1/125) 125 (by norm_num) (by norm_num)]
    decide
  · rw [fmt_shutter_lt_one (1/4000) 4000 (by norm_num) (by norm_num)]
    decide

/-! ## Claim C10 -/

/-- Claim C10: the formatted shutter catalog has no duplicates — the
formatter is injective on the 18 catalog values, so indexing stored shutter
strings in `SHUTTER_CHOICES` is unambiguous. -/
theorem claim_C10_shutter_nodup :
    SHUTTER_CHOICES.Nodup ∧ STANDARD_SHUTTERS.Nodup ∧
    SHUTTER_CHOICES.length = 18 ∧ SHUTTER_CHOICES = STANDARD_SHUTTERS.map fmt_shutter := by
  have hnd : SHUTTER_CHOICES.Nodup := by
    rw [shutter_choices_eval]
    decide
  refine ⟨hnd, ?_, ?_, rfl⟩
  · exact List.Nodup.of_map fmt_shutter hnd
  · rw [shutter_choices_eval]
    rfl

/-! ## Claim C8 -/

theorem pyContains_empty (hay : String) : pyContains hay "" = true := by
  rw [pyContains]
  exact decide_eq_true ⟨[], hay.data, rfl⟩

/-- Claim C8: the library filter keeps, in the original order, exactly the
files containing the query as a case-insensitive substring, further
restricted (when the date filter is non-empty) to names containing the
literal `__{date}__` token; with both filters empty it returns all files
unchanged. -/
theorem claim_C8_library_filter (files : List String) (q d : String) :
    library_filter files q d =
      files.filter (fun f => pyContains (pyLower f) (pyLower q) &&
        (d == "" || pyContains f ("__" ++ d ++ "__"))) ∧
    library_filter files "" "" = files := by
  constructor
  · rw [library_filter]
    by_cases hd : d = ""
    · subst hd
      rw [if_neg (by simp)]
      apply List.filter_congr
      intro f _
      simp
    · rw [if_pos hd, List.filter_filter]
      apply List.filter_congr
      intro f _
      have : (d == "") = false := beq_eq_false_iff_ne.2 hd
      rw [this, Bool.false_or, Bool.and_comm]
  · rw [library_filter, if_neg (by simp)]
    apply List.filter_eq_self.2
    intro f _
    exact pyContains_empty (pyLower f)

/-! ## Claim C9 -/

/-- Claim C9: requesting a reset mutates no roll data; request-then-cancel
returns to the identical idle state; request-then-confirm rebuilds the roll
from the current metadata defaults and returns to idle. -/
theorem claim_C9_reset_machine (s : Session) (frames : Nat) (iso : Int) :
    (request_reset s).roll_df = s.roll_df ∧
    (s.reset_pending = false → cancel_reset (request_reset s) = s) ∧
    (cancel_reset (request_reset s)).roll_df = s.roll_df ∧
    (cancel_reset (request_reset s)).reset_pending = false ∧
    (confirm_reset frames iso (request_reset s)).roll_df =
      some (build_roll frames iso "1/125s" "f/8") ∧
    (confirm_reset frames iso (request_reset s)).reset_pending = false := by
  refine ⟨rfl, ?_, rfl, rfl, rfl, rfl⟩
  intro h
  cases s with
  | mk r pending =>
    simp only at h
    subst h
    rfl

/-- Witness for claim C9 from a concrete idle session. -/
theorem claim_C9_witness :
    cancel_reset (request_reset ⟨some (rollOfFrames [sampleFrame]), false⟩) =
      ⟨some (rollOfFrames [sampleFrame]), false⟩ ∧
    (confirm_reset 12 400 (request_reset ⟨some (rollOfFrames [sampleFrame]), false⟩)).roll_df =
      some (build_roll 12 400 "1/125s" "f/8") :=
  ⟨(claim_C9_reset_machine ⟨some (rollOfFrames [sampleFrame]), false⟩ 12 400).2.1 rfl,
   (claim_C9_reset_machine ⟨some (rollOfFrames [sampleFrame]), false⟩ 12 400).2.2.2.2.1⟩

/-! ## Claim C5 (corrected) -/

/-- The sanitization the code actually performs: strip leading and trailing
whitespace, then replace each remaining space character (U+0020 only) with an
underscore. -/
def stripUnderscore (s : String) : String :=
  ⟨(pyStrip s).data.map (fun ch => if ch = ' ' then '_' else ch)⟩

/-- The sanitization as claim C5 states it: replace every whitespace
character with an underscore, pass all else through verbatim. -/
def claimSanitize (s : String) : String :=
  ⟨s.data.map (fun ch => if pyIsSpace ch then '_' else ch)⟩

/-- The filename exactly as claim C5 states it. -/
def claimFname (now : PyDateTime) (d : PyDate) (p c ft : String) (fr : Nat) : String :=
  fmtTimestamp now ++ "__" ++ fmtDate d ++ "__" ++ claimSanitize p ++ "__" ++
    claimSanitize c ++ "__" ++ claimSanitize ft ++ "__" ++ natToStr fr ++ "f.csv"

/-- Claim C5 as stated fails on the code: a project name with leading
whitespace is stripped by `save_roll_csv` but would be underscored by the
claimed sanitization, so the produced filename differs from the claimed one. -/
theorem claim_C5_counterexample :
    (save_roll_csv sampleNow (rollOfFrames [sampleFrame]) " a" "C" sampleDate "F"
        400 400 36).1 ≠
      claimFname sampleNow sampleDate " a" "C" "F" 36 := by decide

/-- Claim C5 (amended): `save_roll_csv` names the file
`{timestamp}__{date}__{proj}__{camera}__{film}__{frames}f.csv`, where the
timestamp is the save time as `YYYYMMDD_HHMMSS`, the date is `date_shot` as
`YYYY-MM-DD`, and each of the three text fields is first stripped of leading
and trailing whitespace and then has each remaining space character (U+0020
only) replaced by an underscore, all other characters verbatim. -/
theorem claim_C5_filename (now : PyDateTime) (df : DF) (p c : String) (d : PyDate)
    (ft : String) (i1 i2 : Int) (fr : Nat) :
    (save_roll_csv now df p c d ft i1 i2 fr).1 =
      fmtTimestamp now ++ "__" ++ fmtDate d ++ "__" ++ stripUnderscore p ++ "__" ++
        stripUnderscore c ++ "__" ++ stripUnderscore ft ++ "__" ++ natToStr fr ++ "f.csv" := by
  rw [save_roll_csv]
  simp only [pyReplace_single]
  rfl

/-! ## Claim C6 -/

/-- Claim C6: every file written by `save_roll_csv` has the twelve-column
header, exactly one data row per frame in frame order, and the same six
metadata values repeated identically on every data row (only the
frame-specific columns vary). -/
theorem claim_C6_save_format (now : PyDateTime) (df : DF) (p c : String) (d : PyDate)
    (ft : String) (i1 i2 : Int) (fr : Nat) (hc : df.cols = editor_cols) :
    (save_roll_csv now df p c d ft i1 i2 fr).2 =
      FULL_HEADER :: df.rows.map (fun r => metaFields p c d ft i1 i2 ++ r.map renderVal) ∧
    (save_roll_csv now df p c d ft i1 i2 fr).2.tail.length = df.rows.length ∧
    ∀ row ∈ (save_roll_csv now df p c d ft i1 i2 fr).2.tail,
      row.take 6 = metaFields p c d ft i1 i2 := by
  have hb := save_csv_body now df p c d ft i1 i2 fr hc
  refine ⟨hb, by rw [hb]; simp, ?_⟩
  rw [hb]
  intro row hrow
  simp only [List.tail_cons, List.mem_map] at hrow
  obtain ⟨r, _, rfl⟩ := hrow
  rfl

/-- Witness for claim C6 on a concrete one-frame roll. -/
theorem claim_C6_witness :
    (save_roll_csv sampleNow (rollOfFrames [sampleFrame]) "P" "C" sampleDate "F"
        400 200 1).2.head? = some FULL_HEADER := by
  rw [(claim_C6_save_format sampleNow (rollOfFrames [sampleFrame]) "P" "C" sampleDate "F"
    400 200 1 rfl).1]
  rfl

/-! ## Claim C4 -/

/-- Claim C4: loading a persisted file into the editor fails exactly when at
least one of the six editor columns is missing from the file's header, and on
that failure the previously held in-memory roll is left unchanged. -/
theorem claim_C4_load_schema (prev : Option DF) (header : List String)
    (data : List (List String)) (ldf : DF)
    (hload : read_csv (header :: data) = some ldf) :
    ((load_into_editor prev ldf).2 = false ↔ ¬(∀ c ∈ editor_cols, c ∈ header)) ∧
    ((load_into_editor prev ldf).2 = false → (load_into_editor prev ldf).1 = prev) := by
  have hcols : ldf.cols = header := by
    simp only [read_csv] at hload
    obtain rfl := Option.some.inj hload
    rfl
  rw [load_into_editor]
  by_cases h : ∀ c ∈ editor_cols, c ∈ ldf.cols
  · rw [if_pos h]
    rw [hcols] at h
    exact ⟨by simpa using h, by simp⟩
  · rw [if_neg h]
    rw [hcols] at h
    exact ⟨by simpa using h, fun _ => rfl⟩

/-- A header missing the Notes column. -/
def badHeader : List String := ["Project", "Frame #", "ISO", "Shutter", "Aperture", "Lens"]

/-- Witness for claim C4: loading a file whose header misses the Notes column
fails and keeps the previous in-memory roll. -/
theorem claim_C4_witness :
    (load_into_editor (some (rollOfFrames [sampleFrame])) ⟨badHeader, []⟩).2 = false ∧
    (load_into_editor (some (rollOfFrames [sampleFrame])) ⟨badHeader, []⟩).1 =
      some (rollOfFrames [sampleFrame]) := by
  have h := claim_C4_load_schema (some (rollOfFrames [sampleFrame])) badHeader []
    ⟨badHeader, []⟩ rfl
  have hf : (load_into_editor (some (rollOfFrames [sampleFrame])) ⟨badHeader, []⟩).2 = false := by
    rw [h.1]
    decide
  exact ⟨hf, h.2 hf⟩

/-! ## Claim C1 -/

theorem isNA_of_plainText (s : String) (hs : plainText s = true) : isNA s = false := by
  rw [plainText] at hs
  simp only [Bool.and_eq_true, Bool.not_eq_true'] at hs
  exact hs.1.1.1.2

theorem isBoolToken_of_plainText (s : String) (hs : plainText s = true) :
    isBoolToken s = false := by
  rw [plainText] at hs
  simp only [Bool.and_eq_true, Bool.not_eq_true'] at hs
  exact hs.2

theorem parseInt_of_plainText (s : String) (hs : plainText s = true) : parseInt s = none := by
  cases hp : parseInt s with
  | none => rfl
  | some n =>
    exfalso
    have hnum := all_numeric_of_parseInt s n hp
    rw [plainText] at hs
    simp only [Bool.and_eq_true, Bool.not_eq_true'] at hs
    rw [hs.1.1.2] at hnum
    simp at hnum

theorem isIntColumn_true (data : List (List String)) (j : Nat)
    (h : ∀ r ∈ data, ∃ n : Int, r.getD j "" = intToStr n) : isIntColumn data j = true := by
  rw [isIntColumn, List.all_eq_true]
  intro r hr
  obtain ⟨n, hn⟩ := h r hr
  rw [hn, parseInt_intToStr]
  rfl

theorem isIntColumn_false (data : List (List String)) (j : Nat) (r0 : List String)
    (h0 : r0 ∈ data) (hplain : plainText (r0.getD j "") = true) :
    isIntColumn data j = false := by
  cases hall : isIntColumn data j with
  | false => rfl
  | true =>
    exfalso
    rw [isIntColumn] at hall
    have hx := List.all_eq_true.1 hall r0 h0
    rw [parseInt_of_plainText _ hplain] at hx
    simp at hx

theorem isBoolColumn_false (data : List (List String)) (j : Nat) (r0 : List String)
    (h0 : r0 ∈ data) (hplain : plainText (r0.getD j "") = true) :
    isBoolColumn data j = false := by
  cases hall : isBoolColumn data j with
  | false => rfl
  | true =>
    exfalso
    rw [isBoolColumn] at hall
    have hx := List.all_eq_true.1 hall r0 h0
    rw [isBoolToken_of_plainText _ hplain] at hx
    simp at hx

theorem parseCell_int (bc : Bool) (s : String) (n : Int) (hp : parseInt s = some n) :
    parseCell true bc s = Val.int n := by
  rw [parseCell, if_pos rfl, hp]
  rfl

theorem parseCell_plain (s : String) (hs : plainText s = true) :
    parseCell false false s = Val.str s := by
  rw [parseCell, if_neg (by simp), if_neg (by simp), isNA_of_plainText s hs]
  rfl

/-- The data rows of the file produced by saving `rollOfFrames fs`, in the
exact shape produced by `save_csv_body`. -/
def savedRows (p c : String) (d : PyDate) (ft : String) (i1 i2 : Int)
    (fs : List FrameRec) : List (List String) :=
  (fs.map FrameRec.toRow).map (fun r => metaFields p c d ft i1 i2 ++ r.map renderVal)

theorem map_savedRows {β : Type} (p c : String) (d : PyDate) (ft : String) (i1 i2 : Int)
    (fs : List FrameRec) (g : List String → β) :
    (savedRows p c d ft i1 i2 fs).map g =
      fs.map (fun f => g (metaFields p c d ft i1 i2 ++ (FrameRec.toRow f).map renderVal)) := by
  rw [savedRows, List.map_map, List.map_map]
  rfl

/-- Selecting the editor columns from the parsed form of a saved nonempty
roll recovers the roll, frame by frame, when every string cell is plain
text. -/
theorem roundtrip_core (p c : String) (d : PyDate) (ft : String) (i1 i2 : Int)
    (f0 : FrameRec) (fs' : List FrameRec)
    (h : ∀ f ∈ f0 :: fs', plainText f.shutter = true ∧ plainText f.aperture = true ∧
      plainText f.lens = true ∧ plainText f.notes = true) :
    DF.select
      (DF.mk FULL_HEADER ((savedRows p c d ft i1 i2 (f0 :: fs')).map
        (fun r => (List.range FULL_HEADER.length).map (fun j =>
          parseCell (isIntColumn (savedRows p c d ft i1 i2 (f0 :: fs')) j)
            (isBoolColumn (savedRows p c d ft i1 i2 (f0 :: fs')) j) (r.getD j "")))))
      editor_cols = rollOfFrames (f0 :: fs') := by
  have e6 : isIntColumn (savedRows p c d ft i1 i2 (f0 :: fs')) 6 = true := by
    apply isIntColumn_true
    intro r hr
    rw [savedRows, List.mem_map] at hr
    obtain ⟨r2, hr2, rfl⟩ := hr
    rw [List.mem_map] at hr2
    obtain ⟨f', _, rfl⟩ := hr2
    exact ⟨f'.frameNo, rfl⟩
  have e7 : isIntColumn (savedRows p c d ft i1 i2 (f0 :: fs')) 7 = true := by
    apply isIntColumn_true
    intro r hr
    rw [savedRows, List.mem_map] at hr
    obtain ⟨r2, hr2, rfl⟩ := hr
    rw [List.mem_map] at hr2
    obtain ⟨f', _, rfl⟩ := hr2
    exact ⟨f'.iso, rfl⟩
  have hmem0 : metaFields p c d ft i1 i2 ++ (FrameRec.toRow f0).map renderVal ∈
      savedRows p c d ft i1 i2 (f0 :: fs') := by
    rw [savedRows]
    exact List.mem_map_of_mem _ (List.mem_map_of_mem _ (List.mem_cons_self _ _))
  obtain ⟨hsh0, hap0, hle0, hno0⟩ := h f0 (List.mem_cons_self _ _)
  have e8 : isIntColumn (savedRows p c d ft i1 i2 (f0 :: fs')) 8 = false :=
    isIntColumn_false _ _ _ hmem0 hsh0
  have e9 : isIntColumn (savedRows p c d ft i1 i2 (f0 :: fs')) 9 = false :=
    isIntColumn_false _ _ _ hmem0 hap0
  have e10 : isIntColumn (savedRows p c d ft i1 i2 (f0 :: fs')) 10 = false :=
    isIntColumn_false _ _ _ hmem0 hle0
  have e11 : isIntColumn (savedRows p c d ft i1 i2 (f0 :: fs')) 11 = false :=
    isIntColumn_false _ _ _ hmem0 hno0
  have b8 : isBoolColumn (savedRows p c d ft i1 i2 (f0 :: fs')) 8 = false :=
    isBoolColumn_false _ _ _ hmem0 hsh0
  have b9 : isBoolColumn (savedRows p c d ft i1 i2 (f0 :: fs')) 9 = false :=
    isBoolColumn_false _ _ _ hmem0 hap0
  have b10 : isBoolColumn (savedRows p c d ft i1 i2 (f0 :: fs')) 10 = false :=
    isBoolColumn_false _ _ _ hmem0 hle0
  have b11 : isBoolColumn (savedRows p c d ft i1 i2 (f0 :: fs')) 11 = false :=
    isBoolColumn_false _ _ _ hmem0 hno0
  simp only [DF.select]
  rw [rollOfFrames]
  congr 1
  rw [List.map_map, map_savedRows]
  apply List.map_congr_left
  intro f hf
  obtain ⟨hsh, hap, hle, hno⟩ := h f hf
  show [parseCell (isIntColumn (savedRows p c d ft i1 i2 (f0 :: fs')) 6)
          (isBoolColumn (savedRows p c d ft i1 i2 (f0 :: fs')) 6) (intToStr f.frameNo),
        parseCell (isIntColumn (savedRows p c d ft i1 i2 (f0 :: fs')) 7)
          (isBoolColumn (savedRows p c d ft i1 i2 (f0 :: fs')) 7) (intToStr f.iso),
        parseCell (isIntColumn (savedRows p c d ft i1 i2 (f0 :: fs')) 8)
          (isBoolColumn (savedRows p c d ft i1 i2 (f0 :: fs')) 8) f.shutter,
        parseCell (isIntColumn (savedRows p c d ft i1 i2 (f0 :: fs')) 9)
          (isBoolColumn (savedRows p c d ft i1 i2 (f0 :: fs')) 9) f.aperture,
        parseCell (isIntColumn (savedRows p c d ft i1 i2 (f0 :: fs')) 10)
          (isBoolColumn (savedRows p c d ft i1 i2 (f0 :: fs')) 10) f.lens,
        parseCell (isIntColumn (savedRows p c d ft i1 i2 (f0 :: fs')) 11)
          (isBoolColumn (savedRows p c d ft i1 i2 (f0 :: fs')) 11) f.notes] =
      FrameRec.toRow f
  rw [e6, e7, e8, e9, e10, e11, b8, b9, b10, b11,
    parseCell_int _ _ _ (parseInt_intToStr f.frameNo),
    parseCell_int _ _ _ (parseInt_intToStr f.iso),
    parseCell_plain _ hsh, parseCell_plain _ hap, parseCell_plain _ hle,
    parseCell_plain _ hno]
  rfl

/-- Claim C1 as stated fails on the code: the default-built roll has empty
Lens and Notes cells, which the pandas reader brings back as NaN rather than
as empty strings, so the loaded editor columns differ from the saved ones. -/
theorem claim_C1_counterexample :
    (load_roll_csv (save_roll_csv sampleNow (rollOfFrames [emptyFrame]) "My Project" "Cam"
        sampleDate "Tri-X" 400 400 36).2).map (fun ldf => load_into_editor none ldf) ≠
      some (some (rollOfFrames [emptyFrame]), true) := by decide

/-- Claim C1 (amended): saving an in-memory roll with `save_roll_csv` and
loading the produced file back through `load_roll_csv` and the
load-into-editor path yields exactly the saved roll, frame by frame in all
six editor columns, provided every Shutter, Aperture, Lens and Notes cell is
plain text (non-empty, not a pandas NA token, not shaped like a numeric
literal, and not a True/False variant); without that proviso the reader
changes cells, e.g. empty cells come back as NaN. -/
theorem claim_C1_roundtrip (now : PyDateTime) (fs : List FrameRec) (prev : Option DF)
    (p c : String) (d : PyDate) (ft : String) (i1 i2 : Int) (fr : Nat)
    (h : ∀ f ∈ fs, plainText f.shutter = true ∧ plainText f.aperture = true ∧
      plainText f.lens = true ∧ plainText f.notes = true) :
    (load_roll_csv (save_roll_csv now (rollOfFrames fs) p c d ft i1 i2 fr).2).map
      (fun ldf => load_into_editor prev ldf) = some (some (rollOfFrames fs), true) := by
  rw [load_roll_csv, save_csv_body now (rollOfFrames fs) p c d ft i1 i2 fr rfl]
  rcases fs with _ | ⟨f0, fs'⟩
  · rfl
  · show (read_csv (FULL_HEADER :: savedRows p c d ft i1 i2 (f0 :: fs'))).map
        (fun ldf => load_into_editor prev ldf) = some (some (rollOfFrames (f0 :: fs')), true)
    have hread : read_csv (FULL_HEADER :: savedRows p c d ft i1 i2 (f0 :: fs')) =
        some (DF.mk FULL_HEADER ((savedRows p c d ft i1 i2 (f0 :: fs')).map
          (fun r => (List.range FULL_HEADER.length).map (fun j =>
            parseCell (isIntColumn (savedRows p c d ft i1 i2 (f0 :: fs')) j)
              (isBoolColumn (savedRows p c d ft i1 i2 (f0 :: fs')) j)
              (r.getD j ""))))) := rfl
    rw [hread, Option.map_some']
    have hcond0 : ∀ cc ∈ editor_cols, cc ∈ FULL_HEADER := by decide
    have hcond : ∀ cc ∈ editor_cols, cc ∈
        (DF.mk FULL_HEADER ((savedRows p c d ft i1 i2 (f0 :: fs')).map
          (fun r => (List.range FULL_HEADER.length).map (fun j =>
            parseCell (isIntColumn (savedRows p c d ft i1 i2 (f0 :: fs')) j)
              (isBoolColumn (savedRows p c d ft i1 i2 (f0 :: fs')) j)
              (r.getD j ""))))).cols := hcond0
    rw [load_into_editor, if_pos hcond, roundtrip_core p c d ft i1 i2 f0 fs' h]

/-- Witness for claim C1 on a concrete one-frame roll whose string cells are
plain text. -/
theorem claim_C1_witness :
    (load_roll_csv (save_roll_csv sampleNow (rollOfFrames [sampleFrame]) "My Project" "Cam"
        sampleDate "Tri-X" 400 400 36).2).map (fun ldf => load_into_editor none ldf) =
      some (some (rollOfFrames [sampleFrame]), true) :=
  claim_C1_roundtrip sampleNow [sampleFrame] none "My Project" "Cam" sampleDate "Tri-X"
    400 400 36 (by decide)

end FilmRoll
